import Mathlib

/- Shallow embedding of src/api-booker.ts (quickTor, class ApiBarberBooker).

   The HTTP transport is modelled as a deterministic server behaviour: a
   function from the history of previously issued requests and the current
   request to an outcome, which is either a settled response (after whatever
   redirect following the transport performs) or a network error.  Statuses
   are Nat, bodies are an explicit payload type.  The axios `validateStatus`
   mechanism is modelled exactly: a response failing it becomes a thrown
   error carrying that response, and the response interceptor (cookie
   capture) runs only on fulfilled responses.  Static request headers
   (User-Agent, Referer, Content-Type, ...) are constants in the source and
   affect no observable behaviour of the client, so they are not recorded;
   the dynamic `Cookie` header added by the request interceptor is.  The
   unused methods getServiceTypes and getServiceProviders take part in no
   claim and are omitted. -/

/-- Response body as seen by the client: a text body (HTML), a JSON object
carrying a `message` field, or an empty body. -/
inductive Payload
  | empty
  | text (s : String)
  | jsonMessage (m : String)
deriving DecidableEq

/-- Message field of a response body, as `error.response?.data?.message`
reads it: present only when the body is a JSON object with a `message`. -/
def payloadMessage : Payload → Option String
  | Payload.jsonMessage m => some m
  | _ => none

/-- An HTTP request as issued by the client (method, path, query parameters,
form body, and the `Cookie` header added by the request interceptor). -/
structure HttpRequest where
  method : String
  path : String
  params : List (String × String)
  body : Option String
  cookieHeader : Option String
deriving DecidableEq

/-- An HTTP response: status, body, and the `Set-Cookie` headers (absent when
the response carries none). -/
structure HttpResponse where
  status : Nat
  data : Payload
  setCookie : Option (List String)
deriving DecidableEq

/-- Outcome of one transport-level exchange. -/
inductive HttpOutcome
  | response (r : HttpResponse)
  | netError (msg : String)
deriving DecidableEq

/-- Deterministic server behaviour: the outcome of a request as a function of
the requests issued before it (the vendor server is stateful). -/
def Server : Type := List HttpRequest → HttpRequest → HttpOutcome

/-- Client-side state: the session cookie store (`this.sessionCookies`,
kept as name/value pairs; the source keeps the equivalent `name=value`
strings) and the ordered trace of requests issued so far. -/
structure ClientState where
  cookies : List (String × String)
  trace : List HttpRequest
deriving DecidableEq

/-- State of a fresh client: empty cookie store, no request issued. -/
def initialState : ClientState := { cookies := [], trace := [] }

/-- Result of one awaited axios call: fulfilled with a response, or rejected
with an error that carries the response when one was received. -/
inductive AxiosOutcome
  | ok (r : HttpResponse)
  | err (resp : Option HttpResponse) (msg : String)
deriving DecidableEq

/-- BookingConfig of api-booker.ts (optional fields are `?:` there). -/
structure BookingConfig where
  mobile : String
  serviceTypeId : Option Nat
  schedulerId : Option Nat
  date : Option String
  time : Option String
  branchId : Option Nat
deriving DecidableEq

/-- BookingResult of api-booker.ts. -/
structure BookingResult where
  success : Bool
  message : Option String
  appointmentId : Option String
  date : Option String
  time : Option String
deriving DecidableEq

/-- JavaScript string truthiness: the empty string is falsy. -/
def jsTruthy (s : String) : Bool := !s.isEmpty

/-- JavaScript `a || b` over an optional string (absent and empty are falsy). -/
def jsOr (a : Option String) (b : String) : String :=
  match a with
  | some s => if jsTruthy s then s else b
  | none => b

/-- JavaScript `a || b` over an optional number (absent and 0 are falsy). -/
def jsOrNat (a : Option Nat) (b : Nat) : Nat :=
  match a with
  | some n => if n = 0 then b else n
  | none => b

/-- JavaScript `String.split` with a one-character separator, over character
lists (`"".split(c)` is `[""]`). -/
def splitOnChar (sep : Char) : List Char → List (List Char)
  | [] => [[]]
  | c :: rest =>
    if c == sep then [] :: splitOnChar sep rest
    else
      match splitOnChar sep rest with
      | [] => [[c]]
      | g :: gs => (c :: g) :: gs

/-- JavaScript `Array.join` with a one-character separator. -/
def joinWithChar (sep : Char) : List (List Char) → List Char
  | [] => []
  | [g] => g
  | g :: gs => g ++ sep :: joinWithChar sep gs

/-- JavaScript `String.trim`: strip whitespace from both ends. -/
def trimChars (s : List Char) : List Char :=
  (((s.dropWhile Char.isWhitespace).reverse).dropWhile Char.isWhitespace).reverse

/-- Parse one `Set-Cookie` header the way the response interceptor does
(api-booker.ts lines 50-58): take the part before the first `;`, trim it,
split at `=`; keep it only when the name is nonempty and an `=` is present;
the stored name is trimmed, the value is the rest rejoined with `=`. -/
def parseSetCookie (h : String) : Option (String × String) :=
  let cookiePart := trimChars ((splitOnChar ';' h.toList).headD [])
  if cookiePart.isEmpty then none
  else
    match splitOnChar '=' cookiePart with
    | [] => none
    | [_] => none
    | name :: valueParts =>
      if name.isEmpty then none
      else some (String.mk (trimChars name), String.mk (joinWithChar '=' valueParts))

/-- JavaScript `Map.set`: update the value in place when the key exists
(keeping its position), append a new entry otherwise. -/
def jsMapSet (m : List (String × String)) (k v : String) : List (String × String) :=
  if m.any (fun p => p.1 == k) then
    m.map (fun p => if p.1 == k then (k, v) else p)
  else m ++ [(k, v)]

/-- Cookie map built from the `Set-Cookie` headers of one response
(api-booker.ts lines 49-59): insertion ordered, last write wins per name. -/
def cookieMapOf (headers : List String) : List (String × String) :=
  headers.foldl
    (fun m h =>
      match parseSetCookie h with
      | some nv => jsMapSet m nv.1 nv.2
      | none => m)
    []

/-- The response interceptor (api-booker.ts lines 45-64): when the response
carries `Set-Cookie` headers the session store is replaced by the cookie map
of this response alone; otherwise it is left unchanged. -/
def updateCookies (store : List (String × String)) (setCookie : Option (List String)) :
    List (String × String) :=
  match setCookie with
  | none => store
  | some hs => cookieMapOf hs

/-- Value of the `Cookie` header replayed on requests (lines 67-72). -/
def cookieHeaderString (cookies : List (String × String)) : String :=
  String.intercalate "; " (cookies.map (fun p => p.1 ++ "=" ++ p.2))

/-- Request record as built by the request interceptor (lines 67-72): the
`Cookie` header is attached only when the session store is nonempty. -/
def builtRequest (m p : String) (ps : List (String × String)) (b : Option String)
    (cookies : List (String × String)) : HttpRequest :=
  { method := m, path := p, params := ps, body := b,
    cookieHeader := if cookies.isEmpty then none else some (cookieHeaderString cookies) }

/-- Axios default `validateStatus`: 2xx resolves, anything else throws. -/
def defaultValidateStatus (s : Nat) : Bool := decide (200 ≤ s) && decide (s < 300)

/-- The `validateStatus` passed to the login submit and the wizard calls:
2xx and 3xx resolve (`status >= 200 && status < 400`). -/
def redirectValidateStatus (s : Nat) : Bool := decide (200 ≤ s) && decide (s < 400)

/-- Message of the axios error thrown when `validateStatus` rejects. -/
def axiosStatusMessage (s : Nat) : String :=
  "Request failed with status code " ++ toString s

/-- One awaited axios call: build the request (request interceptor), consult
the server behaviour, settle against `validateStatus`, and on a fulfilled
response run the response interceptor (cookie capture).  The request is
recorded in the trace in every case. -/
def doRequest (srv : Server) (st : ClientState) (m p : String)
    (ps : List (String × String)) (b : Option String) (vs : Nat → Bool) :
    AxiosOutcome × ClientState :=
  let req := builtRequest m p ps b st.cookies
  match srv st.trace req with
  | HttpOutcome.netError msg =>
    (AxiosOutcome.err none msg, { cookies := st.cookies, trace := st.trace ++ [req] })
  | HttpOutcome.response r =>
    if vs r.status then
      (AxiosOutcome.ok r,
       { cookies := updateCookies st.cookies r.setCookie, trace := st.trace ++ [req] })
    else
      (AxiosOutcome.err (some r) (axiosStatusMessage r.status),
       { cookies := st.cookies, trace := st.trace ++ [req] })

/-- Boolean list-prefix test (used both for the token pattern literals and to
state trace-ordering properties); `startsWithList pat l` holds when `pat` is
an initial segment of `l`. -/
def startsWithList {α : Type} [BEq α] : List α → List α → Bool
  | [], _ => true
  | _ :: _, [] => false
  | a :: as, b :: bs => a == b && startsWithList as bs

/-- Quote characters accepted by the token regex. -/
def isQuoteChar (c : Char) : Bool := c == '"' || c == '\''

/-- Literal part of the token regex. -/
def tokenLit : List Char := "__RequestVerificationToken".toList

/-- Literal `value=` of the token regex. -/
def valueLit : List Char := "value=".toList

/-- Match `["']([^"']+)["']` at the head of the character list, returning the
capture: an opening quote, a maximal nonempty run of non-quote characters,
then a closing quote (either kind). -/
def matchQuotedValue : List Char → Option String
  | [] => none
  | c :: rest =>
    if isQuoteChar c then
      let cap := rest.takeWhile (fun d => !(isQuoteChar d))
      let rest2 := rest.dropWhile (fun d => !(isQuoteChar d))
      match rest2 with
      | [] => none
      | _ :: _ => if cap.isEmpty then none else some (String.mk cap)
    else none

/-- Match `[^>]*value=["']([^"']+)["']` at the head of the character list,
with the greedy backtracking of the regex engine: the gap consumed by `[^>]*`
is tried from longest to shortest. -/
def tryGapValue (s : List Char) : Option String :=
  let maxGap := (s.takeWhile (fun c => !(c == '>'))).length
  List.findSome?
    (fun i =>
      let t := s.drop i
      if startsWithList valueLit t then matchQuotedValue (t.drop valueLit.length)
      else none)
    ((List.range (maxGap + 1)).reverse)

/-- Leftmost match of the full regex
`__RequestVerificationToken[^>]*value=["']([^"']+)["']` (api-booker.ts line
112): try every start position left to right; at a start position where the
literal matches but the rest fails, move one character right, as the regex
engine does. -/
def extractTokenChars : List Char → Option String
  | [] => none
  | c :: rest =>
    if startsWithList tokenLit (c :: rest) then
      match tryGapValue ((c :: rest).drop tokenLit.length) with
      | some v => some v
      | none => extractTokenChars rest
    else extractTokenChars rest

/-- Token extraction from the login page body string. -/
def extractTokenStr (s : String) : Option String := extractTokenChars s.toList

/-- Token extraction from the login page payload.  When the body is not a
string, `loginPage.data.match` throws a TypeError which the surrounding catch
turns into the same observable behaviour as a missing token (login returns
false before any submit), so a non-text payload yields no token. -/
def loginTokenOf : Payload → Option String
  | Payload.text s => extractTokenStr s
  | _ => none

/-- Characters that `encodeURIComponent` leaves unescaped. -/
def uriUnreserved (c : Char) : Bool :=
  (decide ('A' ≤ c) && decide (c ≤ 'Z')) || (decide ('a' ≤ c) && decide (c ≤ 'z')) ||
  (decide ('0' ≤ c) && decide (c ≤ '9')) ||
  c == '-' || c == '_' || c == '.' || c == '!' || c == '~' || c == '*' ||
  c == '(' || c == ')' || c == '\''

/-- Uppercase hexadecimal digit. -/
def hexDigitChar (n : Nat) : Char :=
  List.getD ("0123456789ABCDEF".toList) n '0'

/-- Percent-encoding of one byte. -/
def percentByte (b : Nat) : String :=
  String.mk ['%', hexDigitChar (b / 16), hexDigitChar (b % 16)]

/-- JavaScript `encodeURIComponent`: unreserved characters pass through,
every other character is replaced by the percent-encoding of its UTF-8
bytes. -/
def encodeURIComponent (s : String) : String :=
  String.join (s.toList.map (fun c =>
    if uriUnreserved c then String.singleton c
    else String.join (((String.singleton c).toUTF8.toList).map
      (fun b => percentByte b.toNat))))

/-- Step 1, validateMobile (api-booker.ts lines 78-92): POST /Validate/Mobile
with the mobile as query parameter; true exactly when the call resolves with
status 200 (any non-2xx status throws and is caught to false; a 2xx status
other than 200 also yields false). -/
def validateMobile (srv : Server) (st : ClientState) (mobile : String) :
    Bool × ClientState :=
  match doRequest srv st "POST" "/Validate/Mobile" [("Mobile", mobile)] none
      defaultValidateStatus with
  | (AxiosOutcome.ok r, st1) => (r.status == 200, st1)
  | (AxiosOutcome.err _ _, st1) => (false, st1)

/-- Catch branch of login (lines 133-140): a caught error still counts as a
successful login when it carries a response of status 302 or 200. -/
def loginCatch : Option HttpResponse → Bool
  | some r => r.status == 302 || r.status == 200
  | none => false

/-- Step 2, login (api-booker.ts lines 97-141): validate the mobile, fetch
the login page, extract the verification token from its body, and submit the
login form with `validateStatus` accepting 2xx and 3xx; the submit counts as
success exactly for statuses 200 and 302.  Any thrown error is caught and
counts as success only when it carries a response of status 302 or 200. -/
def login (srv : Server) (st : ClientState) (mobile : String) : Bool × ClientState :=
  match validateMobile srv st mobile with
  | (false, st1) => (false, st1)
  | (true, st1) =>
    match doRequest srv st1 "GET" "/Account/LoginClients"
        [("CustomerID", "0"), ("ReturnUrl", "/Clients/MakeAppoitment")] none
        defaultValidateStatus with
    | (AxiosOutcome.err resp _, st2) => (loginCatch resp, st2)
    | (AxiosOutcome.ok page, st2) =>
      match loginTokenOf page.data with
      | none => (false, st2)
      | some tok =>
        match doRequest srv st2 "POST" "/Account/LoginMobileClient" []
            (some ("Mobile=" ++ encodeURIComponent mobile ++
              "&__RequestVerificationToken=" ++ encodeURIComponent tok))
            redirectValidateStatus with
        | (AxiosOutcome.ok r, st3) => (r.status == 200 || r.status == 302, st3)
        | (AxiosOutcome.err resp _, st3) => (loginCatch resp, st3)

/-- The `ids` query parameter of the wizard calls: `appointmentTypeIds[0]`,
which is `undefined` for an empty list, and axios omits parameters whose
value is undefined. -/
def headIdsParam (appointmentTypeIds : List Nat) : List (String × String) :=
  match appointmentTypeIds.head? with
  | some n => [("ids", toString n)]
  | none => []

/-- Catch branch of getAvailableTimes (lines 247-259): a caught error whose
response has status 302 yields that response's body, anything else null. -/
def gatCatch : Option HttpResponse → Option Payload
  | some r => if r.status == 302 then some r.data else none
  | none => none

/-- Step 5, getAvailableTimes (api-booker.ts lines 188-260): visit
TypeSelect, SchedulerSelect and TimeSelect in order, then POST
TimeSelectScheduler, every call accepting 2xx and 3xx statuses; the `ids`
parameter is the first appointment type id only.  Returns the final body, or
the body of a caught 302 response, or null. -/
def getAvailableTimes (srv : Server) (st : ClientState)
    (appointmentTypeIds : List Nat) (schedulerId : Nat) (branchId : Nat) :
    Option Payload × ClientState :=
  let idsp := headIdsParam appointmentTypeIds
  match doRequest srv st "GET" "/Clients/TypeSelect/0" [] none
      redirectValidateStatus with
  | (AxiosOutcome.err resp _, st1) => (gatCatch resp, st1)
  | (AxiosOutcome.ok _, st1) =>
    match doRequest srv st1 "GET" "/Clients/SchedulerSelect"
        (idsp ++ [("id", "0"), ("Customers", ""), ("BranchID", toString branchId)])
        none redirectValidateStatus with
    | (AxiosOutcome.err resp _, st2) => (gatCatch resp, st2)
    | (AxiosOutcome.ok _, st2) =>
      match doRequest srv st2 "GET" "/Clients/TimeSelect"
          (idsp ++ [("id", "0"), ("Customers", ""),
            ("SchedulerID", toString schedulerId), ("BranchID", toString branchId)])
          none redirectValidateStatus with
      | (AxiosOutcome.err resp _, st3) => (gatCatch resp, st3)
      | (AxiosOutcome.ok _, st3) =>
        match doRequest srv st3 "POST" "/Clients/TimeSelectScheduler"
            (idsp ++ [("id", "0"), ("Customers", ""),
              ("SchedulerID", toString schedulerId), ("BranchID", toString branchId)])
            none redirectValidateStatus with
        | (AxiosOutcome.err resp _, st4) => (gatCatch resp, st4)
        | (AxiosOutcome.ok r, st4) => (some r.data, st4)

/-- Step 6, getNextWeekTimes (api-booker.ts lines 265-290): one POST to
TimeSelectScheduler2 with the comma-joined id list, default `validateStatus`;
any caught error yields null. -/
def getNextWeekTimes (srv : Server) (st : ClientState)
    (appointmentTypeIds : List Nat) (schedulerId : Nat) (branchId : Nat) :
    Option Payload × ClientState :=
  match doRequest srv st "POST" "/Clients/TimeSelectScheduler2"
      [("ids", String.intercalate "," (appointmentTypeIds.map (fun n => toString n))),
       ("id", "0"), ("Customers", ""),
       ("SchedulerID", toString schedulerId), ("BranchID", toString branchId)]
      none defaultValidateStatus with
  | (AxiosOutcome.ok r, st1) => (some r.data, st1)
  | (AxiosOutcome.err _ _, st1) => (none, st1)

/-- Catch branch of bookAppointment (lines 340-346): failure result whose
message is `error.response?.data?.message || error.message || 'Unknown
error'`. -/
def bookCatch (resp : Option HttpResponse) (msg : String) : BookingResult :=
  { success := false,
    message := some (jsOr (resp.bind (fun r => payloadMessage r.data))
      (jsOr (some msg) "Unknown error")),
    appointmentId := none, date := none, time := none }

/-- Step 7, bookAppointment (api-booker.ts lines 295-347): revisit the
TimeSelect page (comma-joined ids, BranchID 0, default `validateStatus`),
then POST AskAppointment with only the `Length` parameter.  A resolved 200
echoes the requested date and time as a success; any other resolved (2xx)
status is the generic failure; a thrown error is converted by the catch. -/
def bookAppointment (srv : Server) (st : ClientState)
    (appointmentTypeIds : List Nat) (schedulerId : Nat) (date time : String)
    (length : Nat) : BookingResult × ClientState :=
  match doRequest srv st "GET" "/Clients/TimeSelect"
      [("ids", String.intercalate "," (appointmentTypeIds.map (fun n => toString n))),
       ("id", "0"), ("Customers", ""),
       ("SchedulerID", toString schedulerId), ("BranchID", "0")]
      none defaultValidateStatus with
  | (AxiosOutcome.err resp msg, st1) => (bookCatch resp msg, st1)
  | (AxiosOutcome.ok _, st1) =>
    match doRequest srv st1 "POST" "/Clients/AskAppointment"
        [("Length", toString length)] none defaultValidateStatus with
    | (AxiosOutcome.err resp msg, st2) => (bookCatch resp msg, st2)
    | (AxiosOutcome.ok r, st2) =>
      if r.status == 200 then
        ({ success := true, message := some "Appointment booked successfully",
           appointmentId := none, date := some date, time := some time }, st2)
      else
        ({ success := false, message := some "Booking failed - unexpected response",
           appointmentId := none, date := none, time := none }, st2)

/-- Result returned by completeBooking when no date/time was supplied. -/
def noBookingResult : BookingResult :=
  { success := true,
    message := some "Logged in successfully. Use getAvailableTimes() to see available slots",
    appointmentId := none, date := none, time := none }

/-- Result returned by completeBooking when login fails. -/
def loginFailedResult : BookingResult :=
  { success := false, message := some "Login failed",
    appointmentId := none, date := none, time := none }

/-- Appointment type ids used by completeBooking (line 365):
`config.serviceTypeId ? [config.serviceTypeId] : [37331]` — a present,
nonzero (truthy) service type id is used alone, otherwise the hardcoded
appointment type id 37331. -/
def defaultAppointmentTypeIds (serviceTypeId : Option Nat) : List Nat :=
  match serviceTypeId with
  | some n => if n = 0 then [37331] else [n]
  | none => [37331]

/-- Complete flow (api-booker.ts lines 352-391): login; on failure return the
login-failed result; otherwise fetch available times (scheduler id
`config.schedulerId || 6132`, appointment type ids `[config.serviceTypeId]`
when that field is truthy, else `[37331]`, branch id left at its default 0),
then book exactly when both `config.date` and `config.time` are truthy,
passing the default length 7; otherwise return the logged-in-only success.
The unused local `serviceTypeId = config.serviceTypeId || 3928` of line 361
is not modelled.  The surrounding try/catch converts any exception into a
failure result; in this embedding every callee already returns a value on
every branch, so that catch has nothing to intercept. -/
def completeBooking (srv : Server) (st : ClientState) (config : BookingConfig) :
    BookingResult × ClientState :=
  match login srv st config.mobile with
  | (false, st1) => (loginFailedResult, st1)
  | (true, st1) =>
    let schedulerId := jsOrNat config.schedulerId 6132
    let appointmentTypeIds := defaultAppointmentTypeIds config.serviceTypeId
    match getAvailableTimes srv st1 appointmentTypeIds schedulerId 0 with
    | (_, st2) =>
      match config.date, config.time with
      | some d, some t =>
        if jsTruthy d && jsTruthy t then
          bookAppointment srv st2 appointmentTypeIds schedulerId d t 7
        else (noBookingResult, st2)
      | some _, none => (noBookingResult, st2)
      | none, _ => (noBookingResult, st2)

/-- Value of the last occurrence of name `n` among parsed cookies `ps`. -/
def lastValue (ps : List (String × String)) (n : String) : Option String :=
  (ps.reverse.find? (fun p => p.1 == n)).map Prod.snd

/-- Folding `Map.set` over an already-parsed cookie list. -/
def cookieFold (ps : List (String × String)) : List (String × String) :=
  ps.foldl (fun m p => jsMapSet m p.1 p.2) []

/-- Value of a query parameter of a request (none when absent). -/
def getParam (req : HttpRequest) (k : String) : Option String :=
  (req.params.find? (fun p => p.1 == k)).map Prod.snd

/-- Plain 200 response with empty body and no cookies. -/
def ok200 : HttpResponse :=
  { status := 200, data := Payload.empty, setCookie := none }

/-- Plain 302 response with empty body and no cookies. -/
def resp302 : HttpResponse :=
  { status := 302, data := Payload.empty, setCookie := none }

/-- Login page response whose body contains the verification-token field. -/
def tokenPage : HttpResponse :=
  { status := 200,
    data := Payload.text "<input name=\"__RequestVerificationToken\" type=\"hidden\" value=\"tok123\" />",
    setCookie := none }

/-- Login page response whose body lacks the verification-token field. -/
def noTokenPage : HttpResponse :=
  { status := 200, data := Payload.text "<html>no field here</html>", setCookie := none }

/-- Server behaviour answering 200 with an empty body to every request. -/
def srv200 : Server := fun _ _ => HttpOutcome.response ok200

/-- Server behaviour that accepts the whole flow: token-bearing login page,
200 everywhere else. -/
def srvBookOK : Server := fun _ req =>
  if req.path = "/Account/LoginClients" then HttpOutcome.response tokenPage
  else HttpOutcome.response ok200

/-- Server behaviour that redirects the login submit (302) and accepts the
rest of the flow. -/
def srvLogin302 : Server := fun _ req =>
  if req.path = "/Account/LoginMobileClient" then HttpOutcome.response resp302
  else if req.path = "/Account/LoginClients" then HttpOutcome.response tokenPage
  else HttpOutcome.response ok200

/-- Server behaviour that serves a tokenless login page and 200 elsewhere. -/
def srvNoToken : Server := fun _ req =>
  if req.path = "/Account/LoginClients" then HttpOutcome.response noTokenPage
  else HttpOutcome.response ok200

/-- Server behaviour where every request fails at the transport level. -/
def srvFail : Server := fun _ _ => HttpOutcome.netError "ECONNREFUSED"

/-- Booking configuration of the end-to-end scenario of the spec: mobile
0544458876, date 2025-11-16, time 10:00, everything else defaulted. -/
def c1Config : BookingConfig :=
  { mobile := "0544458876", serviceTypeId := none, schedulerId := none,
    date := some "2025-11-16", time := some "10:00", branchId := none }

/-- Booking configuration with no date supplied. -/
def noDateConfig : BookingConfig :=
  { mobile := "0544458876", serviceTypeId := none, schedulerId := none,
    date := none, time := some "10:00", branchId := none }

lemma jsMapSet_keys {m : List (String × String)} {k v : String}
    (h : (m.map Prod.fst).Nodup) : ((jsMapSet m k v).map Prod.fst).Nodup := by
  unfold jsMapSet
  split
  · have hmap : (m.map (fun p => if p.1 == k then (k, v) else p)).map Prod.fst
        = m.map Prod.fst := by
      rw [List.map_map]
      refine List.map_congr_left (fun p _ => ?_)
      by_cases hp : p.1 = k
      · simp [hp]
      · simp [hp]
    rw [hmap]; exact h
  · rename_i hany
    have hk : k ∉ m.map Prod.fst := by
      intro hmem
      apply hany
      rcases List.mem_map.mp hmem with ⟨p, hp, hpk⟩
      exact List.any_eq_true.mpr ⟨p, hp, by simp [hpk]⟩
    simp only [List.map_append, List.map_cons, List.map_nil]
    exact List.Nodup.append h (List.nodup_singleton k)
      (by intro a ha hb; simp at hb; subst hb; exact hk ha)

lemma jsMapSet_mem {m : List (String × String)} {k v n w : String} :
    (n, w) ∈ jsMapSet m k v ↔ (n = k ∧ w = v) ∨ (n ≠ k ∧ (n, w) ∈ m) := by
  unfold jsMapSet
  split
  · rename_i hany
    rcases List.any_eq_true.mp hany with ⟨p, hp, hpk⟩
    simp only [beq_iff_eq] at hpk
    constructor
    · intro hmem
      rcases List.mem_map.mp hmem with ⟨q, hq, hqe⟩
      by_cases hqk : q.1 == k
      · rw [if_pos hqk] at hqe
        injection hqe with h1 h2
        exact Or.inl ⟨h1.symm, h2.symm⟩
      · rw [if_neg hqk] at hqe
        right
        refine ⟨?_, hqe ▸ hq⟩
        intro hnk
        apply hqk
        subst hqe
        exact beq_iff_eq.mpr hnk
    · intro hcase
      rcases hcase with ⟨hnk, hwv⟩ | ⟨hnk, hmem⟩
      · subst hnk; subst hwv
        exact List.mem_map.mpr ⟨p, hp, by simp [hpk]⟩
      · refine List.mem_map.mpr ⟨(n, w), hmem, ?_⟩
        rw [if_neg (by simpa using hnk)]
  · rename_i hany
    have hkabs : ∀ q ∈ m, ¬(q.1 = k) := by
      intro q hq hqk
      exact hany (List.any_eq_true.mpr ⟨q, hq, by simp [hqk]⟩)
    constructor
    · intro hmem
      rcases List.mem_append.mp hmem with hm | hs
      · right
        exact ⟨fun hnk => hkabs (n, w) hm hnk, hm⟩
      · left
        simp only [List.mem_singleton, Prod.mk.injEq] at hs
        exact hs
    · intro hcase
      rcases hcase with ⟨hnk, hwv⟩ | ⟨hnk, hmem⟩
      · subst hnk; subst hwv; exact List.mem_append.mpr (Or.inr (by simp))
      · exact List.mem_append.mpr (Or.inl hmem)

lemma cookieMapOf_eq_fold (hs : List String) :
    cookieMapOf hs = cookieFold (hs.filterMap parseSetCookie) := by
  suffices h : ∀ (l : List String) (m : List (String × String)),
      l.foldl (fun m h => match parseSetCookie h with
        | some nv => jsMapSet m nv.1 nv.2
        | none => m) m
      = (l.filterMap parseSetCookie).foldl (fun m p => jsMapSet m p.1 p.2) m by
    exact h hs []
  intro l
  induction l with
  | nil => intro m; rfl
  | cons hd tl ih =>
    intro m
    simp only [List.foldl_cons, List.filterMap_cons]
    cases hp : parseSetCookie hd with
    | none => exact ih m
    | some nv => simp only [List.foldl_cons]; exact ih (jsMapSet m nv.1 nv.2)

lemma lastValue_append_singleton (l : List (String × String)) (p : String × String)
    (n : String) :
    lastValue (l ++ [p]) n = if p.1 == n then some p.2 else lastValue l n := by
  unfold lastValue
  rw [List.reverse_append]
  simp only [List.reverse_singleton, List.singleton_append]
  cases h : (p.1 == n) <;> simp [List.find?_cons, h]

lemma cookieFold_spec (ps : List (String × String)) :
    ((cookieFold ps).map Prod.fst).Nodup ∧
      ∀ n w, ((n, w) ∈ cookieFold ps ↔ lastValue ps n = some w) := by
  induction ps using List.reverseRecOn with
  | nil => simp [cookieFold, lastValue]
  | append_singleton l p ih =>
    have hfold : cookieFold (l ++ [p]) = jsMapSet (cookieFold l) p.1 p.2 := by
      unfold cookieFold
      rw [List.foldl_append]
      rfl
    constructor
    · rw [hfold]; exact jsMapSet_keys ih.1
    · intro n w
      rw [hfold, jsMapSet_mem, lastValue_append_singleton]
      by_cases hn : p.1 == n
      · have hn' : n = p.1 := (eq_of_beq hn).symm
        simp [hn, hn', eq_comm]
      · have hn' : ¬(n = p.1) := fun h => hn (beq_iff_eq.mpr h.symm)
        simp [hn, hn', ih.2 n w]

lemma doRequest_net {srv : Server} {st : ClientState} {m p : String}
    {ps : List (String × String)} {b : Option String} {vs : Nat → Bool} {msg : String}
    (hsrv : srv st.trace (builtRequest m p ps b st.cookies) = HttpOutcome.netError msg) :
    doRequest srv st m p ps b vs =
      (AxiosOutcome.err none msg,
       { cookies := st.cookies,
         trace := st.trace ++ [builtRequest m p ps b st.cookies] }) := by
  simp [doRequest, hsrv]

lemma doRequest_ok {srv : Server} {st : ClientState} {m p : String}
    {ps : List (String × String)} {b : Option String} {vs : Nat → Bool} {r : HttpResponse}
    (hsrv : srv st.trace (builtRequest m p ps b st.cookies) = HttpOutcome.response r)
    (hvs : vs r.status = true) :
    doRequest srv st m p ps b vs =
      (AxiosOutcome.ok r,
       { cookies := updateCookies st.cookies r.setCookie,
         trace := st.trace ++ [builtRequest m p ps b st.cookies] }) := by
  simp [doRequest, hsrv, hvs]

lemma doRequest_reject {srv : Server} {st : ClientState} {m p : String}
    {ps : List (String × String)} {b : Option String} {vs : Nat → Bool} {r : HttpResponse}
    (hsrv : srv st.trace (builtRequest m p ps b st.cookies) = HttpOutcome.response r)
    (hvs : vs r.status = false) :
    doRequest srv st m p ps b vs =
      (AxiosOutcome.err (some r) (axiosStatusMessage r.status),
       { cookies := st.cookies,
         trace := st.trace ++ [builtRequest m p ps b st.cookies] }) := by
  simp [doRequest, hsrv, hvs]

lemma doRequest_trace (srv : Server) (st : ClientState) (m p : String)
    (ps : List (String × String)) (b : Option String) (vs : Nat → Bool) :
    ((doRequest srv st m p ps b vs).2).trace
      = st.trace ++ [builtRequest m p ps b st.cookies] := by
  cases hsrv : srv st.trace (builtRequest m p ps b st.cookies) with
  | netError msg => rw [doRequest_net hsrv]
  | response r =>
    cases hvs : vs r.status with
    | true => rw [doRequest_ok hsrv hvs]
    | false => rw [doRequest_reject hsrv hvs]

lemma doRequest_trace_of_eq {srv : Server} {st stx : ClientState} {m p : String}
    {ps : List (String × String)} {b : Option String} {vs : Nat → Bool}
    {o : AxiosOutcome}
    (h : doRequest srv st m p ps b vs = (o, stx)) :
    stx.trace = st.trace ++ [builtRequest m p ps b st.cookies] := by
  have := doRequest_trace srv st m p ps b vs
  rw [h] at this
  exact this

lemma validateMobile_snd (srv : Server) (st : ClientState) (mobile : String) :
    (validateMobile srv st mobile).2
      = (doRequest srv st "POST" "/Validate/Mobile" [("Mobile", mobile)] none
          defaultValidateStatus).2 := by
  unfold validateMobile
  cases hdo : doRequest srv st "POST" "/Validate/Mobile" [("Mobile", mobile)] none
      defaultValidateStatus with
  | mk o stx => cases o <;> rfl

/-- Every request added to the trace by `login` targets one of its three
endpoints. -/
lemma login_trace_paths (srv : Server) (st : ClientState) (mobile : String) :
    ∀ req ∈ (login srv st mobile).2.trace,
      req ∈ st.trace ∨ req.path = "/Validate/Mobile" ∨
        req.path = "/Account/LoginClients" ∨ req.path = "/Account/LoginMobileClient" := by
  intro req hreq
  unfold login at hreq
  rcases hv : validateMobile srv st mobile with ⟨b, st1⟩
  rw [hv] at hreq
  have h1 : st1.trace = st.trace
      ++ [builtRequest "POST" "/Validate/Mobile" [("Mobile", mobile)] none st.cookies] := by
    have hsnd := validateMobile_snd srv st mobile
    rw [hv] at hsnd
    have hsnd' : st1 = (doRequest srv st "POST" "/Validate/Mobile" [("Mobile", mobile)] none
        defaultValidateStatus).2 := hsnd
    rw [hsnd']
    exact doRequest_trace srv st "POST" "/Validate/Mobile" [("Mobile", mobile)] none
      defaultValidateStatus
  cases b with
  | false =>
    dsimp only at hreq
    rw [h1] at hreq
    rcases List.mem_append.mp hreq with h | h
    · exact Or.inl h
    · simp only [List.mem_singleton] at h
      subst h
      exact Or.inr (Or.inl rfl)
  | true =>
    dsimp only at hreq
    rcases hp : doRequest srv st1 "GET" "/Account/LoginClients"
        [("CustomerID", "0"), ("ReturnUrl", "/Clients/MakeAppoitment")] none
        defaultValidateStatus with ⟨o2, st2⟩
    rw [hp] at hreq
    have h2 : st2.trace = st1.trace ++ [builtRequest "GET" "/Account/LoginClients"
        [("CustomerID", "0"), ("ReturnUrl", "/Clients/MakeAppoitment")] none st1.cookies] :=
      doRequest_trace_of_eq hp
    have memtwo : ∀ r0, r0 ∈ st2.trace → r0 ∈ st.trace ∨ r0.path = "/Validate/Mobile" ∨
        r0.path = "/Account/LoginClients" ∨ r0.path = "/Account/LoginMobileClient" := by
      intro r0 hr0
      rw [h2] at hr0
      rcases List.mem_append.mp hr0 with h | h
      · rw [h1] at h
        rcases List.mem_append.mp h with h' | h'
        · exact Or.inl h'
        · simp only [List.mem_singleton] at h'
          subst h'
          exact Or.inr (Or.inl rfl)
      · simp only [List.mem_singleton] at h
        subst h
        exact Or.inr (Or.inr (Or.inl rfl))
    cases o2 with
    | err resp msg =>
      dsimp only at hreq
      exact memtwo req hreq
    | ok page =>
      dsimp only at hreq
      cases htok : loginTokenOf page.data with
      | none =>
        rw [htok] at hreq
        dsimp only at hreq
        exact memtwo req hreq
      | some tok =>
        rw [htok] at hreq
        dsimp only at hreq
        rcases hs : doRequest srv st2 "POST" "/Account/LoginMobileClient" []
            (some ("Mobile=" ++ encodeURIComponent mobile ++
              "&__RequestVerificationToken=" ++ encodeURIComponent tok))
            redirectValidateStatus with ⟨o3, st3⟩
        rw [hs] at hreq
        have h3 : st3.trace = st2.trace ++ [builtRequest "POST" "/Account/LoginMobileClient" []
            (some ("Mobile=" ++ encodeURIComponent mobile ++
              "&__RequestVerificationToken=" ++ encodeURIComponent tok)) st2.cookies] :=
          doRequest_trace_of_eq hs
        have hin3 : req ∈ st3.trace := by
          cases o3 with
          | ok r => simpa using hreq
          | err resp msg => simpa using hreq
        rw [h3] at hin3
        rcases List.mem_append.mp hin3 with h | h
        · exact memtwo req h
        · simp only [List.mem_singleton] at h
          subst h
          exact Or.inr (Or.inr (Or.inr rfl))

lemma mem_append_single {l : List HttpRequest} {r0 req : HttpRequest}
    (h : req ∈ l ++ [r0]) : req ∈ l ∨ req = r0 := by
  rcases List.mem_append.mp h with h' | h'
  · exact Or.inl h'
  · simp only [List.mem_singleton] at h'
    exact Or.inr h'

/-- Every request added to the trace by `getAvailableTimes` targets one of
its four wizard endpoints. -/
lemma gat_trace_paths (srv : Server) (st : ClientState) (ids : List Nat)
    (sid bid : Nat) :
    ∀ req ∈ (getAvailableTimes srv st ids sid bid).2.trace,
      req ∈ st.trace ∨ req.path = "/Clients/TypeSelect/0" ∨
        req.path = "/Clients/SchedulerSelect" ∨ req.path = "/Clients/TimeSelect" ∨
        req.path = "/Clients/TimeSelectScheduler" := by
  intro req hreq
  unfold getAvailableTimes at hreq
  rcases h1 : doRequest srv st "GET" "/Clients/TypeSelect/0" [] none
      redirectValidateStatus with ⟨o1, st1⟩
  rw [h1] at hreq
  have t1 := doRequest_trace_of_eq h1
  have mem1 : ∀ r0, r0 ∈ st1.trace → r0 ∈ st.trace ∨ r0.path = "/Clients/TypeSelect/0" ∨
      r0.path = "/Clients/SchedulerSelect" ∨ r0.path = "/Clients/TimeSelect" ∨
      r0.path = "/Clients/TimeSelectScheduler" := by
    intro r0 hr0
    rw [t1] at hr0
    rcases mem_append_single hr0 with h | h
    · exact Or.inl h
    · subst h; exact Or.inr (Or.inl rfl)
  cases o1 with
  | err resp msg => dsimp only at hreq; exact mem1 req hreq
  | ok page1 =>
    dsimp only at hreq
    rcases h2 : doRequest srv st1 "GET" "/Clients/SchedulerSelect"
        (headIdsParam ids ++ [("id", "0"), ("Customers", ""), ("BranchID", toString bid)])
        none redirectValidateStatus with ⟨o2, st2⟩
    rw [h2] at hreq
    have t2 := doRequest_trace_of_eq h2
    have mem2 : ∀ r0, r0 ∈ st2.trace → r0 ∈ st.trace ∨ r0.path = "/Clients/TypeSelect/0" ∨
        r0.path = "/Clients/SchedulerSelect" ∨ r0.path = "/Clients/TimeSelect" ∨
        r0.path = "/Clients/TimeSelectScheduler" := by
      intro r0 hr0
      rw [t2] at hr0
      rcases mem_append_single hr0 with h | h
      · exact mem1 r0 h
      · subst h; exact Or.inr (Or.inr (Or.inl rfl))
    cases o2 with
    | err resp msg => dsimp only at hreq; exact mem2 req hreq
    | ok page2 =>
      dsimp only at hreq
      rcases h3 : doRequest srv st2 "GET" "/Clients/TimeSelect"
          (headIdsParam ids ++ [("id", "0"), ("Customers", ""),
            ("SchedulerID", toString sid), ("BranchID", toString bid)])
          none redirectValidateStatus with ⟨o3, st3⟩
      rw [h3] at hreq
      have t3 := doRequest_trace_of_eq h3
      have mem3 : ∀ r0, r0 ∈ st3.trace → r0 ∈ st.trace ∨ r0.path = "/Clients/TypeSelect/0" ∨
          r0.path = "/Clients/SchedulerSelect" ∨ r0.path = "/Clients/TimeSelect" ∨
          r0.path = "/Clients/TimeSelectScheduler" := by
        intro r0 hr0
        rw [t3] at hr0
        rcases mem_append_single hr0 with h | h
        · exact mem2 r0 h
        · subst h; exact Or.inr (Or.inr (Or.inr (Or.inl rfl)))
      cases o3 with
      | err resp msg => dsimp only at hreq; exact mem3 req hreq
      | ok page3 =>
        dsimp only at hreq
        rcases h4 : doRequest srv st3 "POST" "/Clients/TimeSelectScheduler"
            (headIdsParam ids ++ [("id", "0"), ("Customers", ""),
              ("SchedulerID", toString sid), ("BranchID", toString bid)])
            none redirectValidateStatus with ⟨o4, st4⟩
        rw [h4] at hreq
        have t4 := doRequest_trace_of_eq h4
        have hin4 : req ∈ st4.trace := by
          cases o4 with
          | ok r => simpa using hreq
          | err resp msg => simpa using hreq
        rw [t4] at hin4
        rcases mem_append_single hin4 with h | h
        · exact mem3 req h
        · subst h; exact Or.inr (Or.inr (Or.inr (Or.inr rfl)))

lemma updateCookies_some_eq_fold (store : List (String × String)) (hs : List String) :
    updateCookies store (some hs) = cookieFold (hs.filterMap parseSetCookie) := by
  simp only [updateCookies]
  exact cookieMapOf_eq_fold hs

/-- Every entry of the cookie map of a response comes from a parsed
`Set-Cookie` header of that response. -/
lemma cookieMapOf_names (hs : List String) {n v : String}
    (hmem : (n, v) ∈ cookieMapOf hs) :
    ∃ h0 ∈ hs, ∃ w, parseSetCookie h0 = some (n, w) := by
  rw [cookieMapOf_eq_fold] at hmem
  have hlast := ((cookieFold_spec (hs.filterMap parseSetCookie)).2 n v).mp hmem
  unfold lastValue at hlast
  rcases hfind : (hs.filterMap parseSetCookie).reverse.find? (fun p => p.1 == n) with _ | q
  · rw [hfind] at hlast; simp at hlast
  · rw [hfind] at hlast
    have hq : q ∈ (hs.filterMap parseSetCookie).reverse := List.mem_of_find?_eq_some hfind
    have hqp := List.find?_some hfind
    have hqn : q.1 = n := by simpa using hqp
    rcases List.mem_filterMap.mp (List.mem_reverse.mp hq) with ⟨h0, hh0, hparse⟩
    refine ⟨h0, hh0, q.2, ?_⟩
    rw [hparse]
    rw [show q = (n, q.2) from by rw [← hqn]]

/-- C3: for every response whose `Set-Cookie` header carries multiple
cookies, the session cookie store after the interceptor runs has exactly one
entry per cookie name parsed from that header, holding the value of the last
occurrence of that name (last write wins per name). -/
theorem c3_setcookie_last_write_wins (store : List (String × String))
    (hs : List String) (hmulti : 2 ≤ hs.length) :
    ((updateCookies store (some hs)).map Prod.fst).Nodup ∧
      ∀ n v, ((n, v) ∈ updateCookies store (some hs) ↔
        lastValue (hs.filterMap parseSetCookie) n = some v) := by
  rw [updateCookies_some_eq_fold]
  exact cookieFold_spec (hs.filterMap parseSetCookie)

/-- Witness for C3: a concrete response setting `a` twice and `b` once keeps
one deduplicated entry per name and the later value of `a`. -/
theorem c3_setcookie_last_write_wins_witness :
    ((updateCookies [("old", "9")] (some ["a=1; Path=/", "b=2; HttpOnly", "a=3"])).map
      Prod.fst).Nodup ∧
    ("a", "3") ∈ updateCookies [("old", "9")] (some ["a=1; Path=/", "b=2; HttpOnly", "a=3"]) := by
  constructor
  · exact (c3_setcookie_last_write_wins [("old", "9")]
      ["a=1; Path=/", "b=2; HttpOnly", "a=3"] (by decide)).1
  · exact ((c3_setcookie_last_write_wins [("old", "9")]
      ["a=1; Path=/", "b=2; HttpOnly", "a=3"] (by decide)).2 "a" "3").mpr (by decide)

/-- C10: for every response carrying at least one `Set-Cookie` header the
session store after the interceptor consists exactly of the cookies named in
that response: the result does not depend on the previous store, every entry
comes from a header of this response, an earlier cookie whose name is not
re-set is discarded, and a response with no `Set-Cookie` header leaves the
store unchanged. -/
theorem c10_store_superseded (store store2 : List (String × String))
    (hs : List String) (hone : 1 ≤ hs.length) :
    updateCookies store (some hs) = updateCookies store2 (some hs) ∧
    (∀ n v, (n, v) ∈ updateCookies store (some hs) →
      ∃ h0 ∈ hs, ∃ w, parseSetCookie h0 = some (n, w)) ∧
    (∀ n v, (n, v) ∈ store → (¬ ∃ h0 ∈ hs, ∃ w, parseSetCookie h0 = some (n, w)) →
      (n, v) ∉ updateCookies store (some hs)) ∧
    updateCookies store none = store := by
  refine ⟨rfl, ?_, ?_, rfl⟩
  · intro n v hmem
    exact cookieMapOf_names hs hmem
  · intro n v _ hne hmem
    exact hne (cookieMapOf_names hs hmem)

/-- Witness for C10: a concrete response carrying one cookie replaces a
store that held a different cookie, and the old name is gone. -/
theorem c10_store_superseded_witness :
    updateCookies [("sess", "1")] (some ["token=abc"])
      = updateCookies [] (some ["token=abc"]) ∧
    ("sess", "1") ∉ updateCookies [("sess", "1")] (some ["token=abc"]) := by
  constructor
  · exact (c10_store_superseded [("sess", "1")] [] ["token=abc"] (by decide)).1
  · refine (c10_store_superseded [("sess", "1")] [] ["token=abc"] (by decide)).2.2.1
      "sess" "1" (by decide) ?_
    rintro ⟨h0, hh0, w, hw⟩
    simp only [List.mem_singleton] at hh0
    subst hh0
    have hp : parseSetCookie "token=abc" = some ("token", "abc") := by decide
    rw [hp] at hw
    injection hw with h1
    injection h1 with h2 h3
    exact absurd h2 (by decide)

/-- C4: on every invocation of getAvailableTimes the issued requests form a
prefix of the fixed sequence type-selection page, provider-selection page,
time-selection page, time-fetch call — so the three wizard pages are always
requested in that strict order and the time-fetch POST is never issued
before all three page visits. -/
theorem c4_wizard_strict_order (srv : Server) (st : ClientState)
    (ids : List Nat) (sid bid : Nat) :
    startsWithList
      (((getAvailableTimes srv st ids sid bid).2.trace.drop st.trace.length).map
        (fun r => (r.method, r.path)))
      [("GET", "/Clients/TypeSelect/0"), ("GET", "/Clients/SchedulerSelect"),
       ("GET", "/Clients/TimeSelect"), ("POST", "/Clients/TimeSelectScheduler")] = true ∧
    (getAvailableTimes srv st ids sid bid).2.trace.drop st.trace.length ≠ [] := by
  unfold getAvailableTimes
  rcases h1 : doRequest srv st "GET" "/Clients/TypeSelect/0" [] none
      redirectValidateStatus with ⟨o1, st1⟩
  have t1 := doRequest_trace_of_eq h1
  cases o1 with
  | err resp msg =>
    constructor <;>
      simp [t1, List.append_assoc, List.drop_left, builtRequest, startsWithList]
  | ok page1 =>
    dsimp only
    rcases h2 : doRequest srv st1 "GET" "/Clients/SchedulerSelect"
        (headIdsParam ids ++ [("id", "0"), ("Customers", ""), ("BranchID", toString bid)])
        none redirectValidateStatus with ⟨o2, st2⟩
    have t2 := doRequest_trace_of_eq h2
    cases o2 with
    | err resp msg =>
      constructor <;>
        simp [t2, t1, List.append_assoc, List.drop_left, builtRequest, startsWithList]
    | ok page2 =>
      dsimp only
      rcases h3 : doRequest srv st2 "GET" "/Clients/TimeSelect"
          (headIdsParam ids ++ [("id", "0"), ("Customers", ""),
            ("SchedulerID", toString sid), ("BranchID", toString bid)])
          none redirectValidateStatus with ⟨o3, st3⟩
      have t3 := doRequest_trace_of_eq h3
      cases o3 with
      | err resp msg =>
        constructor <;>
          simp [t3, t2, t1, List.append_assoc, List.drop_left, builtRequest, startsWithList]
      | ok page3 =>
        dsimp only
        rcases h4 : doRequest srv st3 "POST" "/Clients/TimeSelectScheduler"
            (headIdsParam ids ++ [("id", "0"), ("Customers", ""),
              ("SchedulerID", toString sid), ("BranchID", toString bid)])
            none redirectValidateStatus with ⟨o4, st4⟩
        have t4 := doRequest_trace_of_eq h4
        cases o4 with
        | err resp msg =>
          constructor <;>
            simp [t4, t3, t2, t1, List.append_assoc, List.drop_left, builtRequest,
              startsWithList]
        | ok r =>
          constructor <;>
            simp [t4, t3, t2, t1, List.append_assoc, List.drop_left, builtRequest,
              startsWithList]

/-- Counterexample to C9 as stated: with at least two appointment type ids,
getAvailableTimes does not send `ids` on all four of its requests — its
first request (GET /Clients/TypeSelect/0) carries no `ids` parameter at
all. -/
theorem c9_counterexample :
    ¬ (∀ req ∈ (getAvailableTimes srv200 initialState [1, 2] 6132 0).2.trace,
        getParam req "ids" = some "1") := by
  decide

/-- C9 (amended): with at least two appointment type ids, every
getAvailableTimes request that carries an `ids` parameter carries only the
first element (the type-selection request carries none), the remaining
elements are ignored entirely, while getNextWeekTimes sends the comma-joined
full list, and bookAppointment sends the comma-joined full list on its
time-selection request (its final booking POST carries no `ids`). -/
theorem c9_ids_parameters (srv : Server) (st : ClientState) (a b : Nat)
    (rest : List Nat) (sid bid : Nat) (d t : String) (len : Nat) :
    startsWithList
      (((getAvailableTimes srv st (a :: b :: rest) sid bid).2.trace.drop
          st.trace.length).map (fun r => getParam r "ids"))
      [none, some (toString a), some (toString a), some (toString a)] = true ∧
    getAvailableTimes srv st (a :: b :: rest) sid bid
      = getAvailableTimes srv st [a] sid bid ∧
    ((getNextWeekTimes srv st (a :: b :: rest) sid bid).2.trace.drop
        st.trace.length).map (fun r => getParam r "ids")
      = [some (String.intercalate "," ((a :: b :: rest).map (fun n => toString n)))] ∧
    startsWithList
      (((bookAppointment srv st (a :: b :: rest) sid d t len).2.trace.drop
          st.trace.length).map (fun r => getParam r "ids"))
      [some (String.intercalate "," ((a :: b :: rest).map (fun n => toString n))),
       none] = true ∧
    (bookAppointment srv st (a :: b :: rest) sid d t len).2.trace.drop
        st.trace.length ≠ [] := by
  refine ⟨?_, rfl, ?_, ?_, ?_⟩
  · unfold getAvailableTimes
    rcases h1 : doRequest srv st "GET" "/Clients/TypeSelect/0" [] none
        redirectValidateStatus with ⟨o1, st1⟩
    have t1 := doRequest_trace_of_eq h1
    cases o1 with
    | err resp msg =>
      simp [t1, List.append_assoc, List.drop_left, builtRequest, startsWithList,
        getParam, headIdsParam]
    | ok page1 =>
      dsimp only
      rcases h2 : doRequest srv st1 "GET" "/Clients/SchedulerSelect"
          (headIdsParam (a :: b :: rest) ++ [("id", "0"), ("Customers", ""),
            ("BranchID", toString bid)]) none redirectValidateStatus with ⟨o2, st2⟩
      have t2 := doRequest_trace_of_eq h2
      cases o2 with
      | err resp msg =>
        simp [t2, t1, List.append_assoc, List.drop_left, builtRequest, startsWithList,
          getParam, headIdsParam, List.find?]
      | ok page2 =>
        dsimp only
        rcases h3 : doRequest srv st2 "GET" "/Clients/TimeSelect"
            (headIdsParam (a :: b :: rest) ++ [("id", "0"), ("Customers", ""),
              ("SchedulerID", toString sid), ("BranchID", toString bid)])
            none redirectValidateStatus with ⟨o3, st3⟩
        have t3 := doRequest_trace_of_eq h3
        cases o3 with
        | err resp msg =>
          simp [t3, t2, t1, List.append_assoc, List.drop_left, builtRequest,
            startsWithList, getParam, headIdsParam, List.find?]
        | ok page3 =>
          dsimp only
          rcases h4 : doRequest srv st3 "POST" "/Clients/TimeSelectScheduler"
              (headIdsParam (a :: b :: rest) ++ [("id", "0"), ("Customers", ""),
                ("SchedulerID", toString sid), ("BranchID", toString bid)])
              none redirectValidateStatus with ⟨o4, st4⟩
          have t4 := doRequest_trace_of_eq h4
          cases o4 with
          | err resp msg =>
            simp [t4, t3, t2, t1, List.append_assoc, List.drop_left, builtRequest,
              startsWithList, getParam, headIdsParam, List.find?]
          | ok r =>
            simp [t4, t3, t2, t1, List.append_assoc, List.drop_left, builtRequest,
              startsWithList, getParam, headIdsParam, List.find?]
  · unfold getNextWeekTimes
    rcases h1 : doRequest srv st "POST" "/Clients/TimeSelectScheduler2"
        [("ids", String.intercalate "," ((a :: b :: rest).map (fun n => toString n))),
         ("id", "0"), ("Customers", ""),
         ("SchedulerID", toString sid), ("BranchID", toString bid)]
        none defaultValidateStatus with ⟨o1, st1⟩
    have t1 := doRequest_trace_of_eq h1
    cases o1 with
    | err resp msg =>
      simp [t1, List.append_assoc, List.drop_left, builtRequest, getParam, List.find?]
    | ok r =>
      simp [t1, List.append_assoc, List.drop_left, builtRequest, getParam, List.find?]
  · unfold bookAppointment
    rcases h1 : doRequest srv st "GET" "/Clients/TimeSelect"
        [("ids", String.intercalate "," ((a :: b :: rest).map (fun n => toString n))),
         ("id", "0"), ("Customers", ""),
         ("SchedulerID", toString sid), ("BranchID", "0")]
        none defaultValidateStatus with ⟨o1, st1⟩
    have t1 := doRequest_trace_of_eq h1
    cases o1 with
    | err resp msg =>
      simp [t1, List.append_assoc, List.drop_left, builtRequest, startsWithList,
        getParam, List.find?]
    | ok r1 =>
      dsimp only
      rcases h2 : doRequest srv st1 "POST" "/Clients/AskAppointment"
          [("Length", toString len)] none defaultValidateStatus with ⟨o2, st2⟩
      have t2 := doRequest_trace_of_eq h2
      cases o2 with
      | err resp msg =>
        simp [t2, t1, List.append_assoc, List.drop_left, builtRequest, startsWithList,
          getParam, List.find?]
      | ok r2 =>
        dsimp only
        by_cases h200 : (r2.status == 200) = true
        · simp [h200, t2, t1, List.append_assoc, List.drop_left, builtRequest,
            startsWithList, getParam, List.find?]
        · simp [h200, t2, t1, List.append_assoc, List.drop_left, builtRequest,
            startsWithList, getParam, List.find?]
  · unfold bookAppointment
    rcases h1 : doRequest srv st "GET" "/Clients/TimeSelect"
        [("ids", String.intercalate "," ((a :: b :: rest).map (fun n => toString n))),
         ("id", "0"), ("Customers", ""),
         ("SchedulerID", toString sid), ("BranchID", "0")]
        none defaultValidateStatus with ⟨o1, st1⟩
    have t1 := doRequest_trace_of_eq h1
    cases o1 with
    | err resp msg =>
      simp [t1, List.append_assoc, List.drop_left]
    | ok r1 =>
      dsimp only
      rcases h2 : doRequest srv st1 "POST" "/Clients/AskAppointment"
          [("Length", toString len)] none defaultValidateStatus with ⟨o2, st2⟩
      have t2 := doRequest_trace_of_eq h2
      cases o2 with
      | err resp msg =>
        simp [t2, t1, List.append_assoc, List.drop_left]
      | ok r2 =>
        dsimp only
        by_cases h200 : (r2.status == 200) = true
        · simp [h200, t2, t1, List.append_assoc, List.drop_left]
        · simp [h200, t2, t1, List.append_assoc, List.drop_left]

/-- Symbolic execution of the first two steps of `login` against a server
that accepts mobile validation (status 200) and serves a fixed login page
that resolves: login reaches the token-extraction stage with known traces. -/
lemma login_stage_page (srv : Server) (st : ClientState) (mobile : String)
    (rp : HttpResponse)
    (hv : ∀ hist req, req.method = "POST" → req.path = "/Validate/Mobile" →
      ∃ r, srv hist req = HttpOutcome.response r ∧ r.status = 200)
    (hp : ∀ hist req, req.method = "GET" → req.path = "/Account/LoginClients" →
      srv hist req = HttpOutcome.response rp)
    (hrp : defaultValidateStatus rp.status = true) :
    ∃ stv stp, validateMobile srv st mobile = (true, stv) ∧
      doRequest srv stv "GET" "/Account/LoginClients"
        [("CustomerID", "0"), ("ReturnUrl", "/Clients/MakeAppoitment")] none
        defaultValidateStatus = (AxiosOutcome.ok rp, stp) ∧
      stv.trace = st.trace
        ++ [builtRequest "POST" "/Validate/Mobile" [("Mobile", mobile)] none st.cookies] ∧
      stp.trace = stv.trace ++ [builtRequest "GET" "/Account/LoginClients"
        [("CustomerID", "0"), ("ReturnUrl", "/Clients/MakeAppoitment")] none stv.cookies] := by
  obtain ⟨rv, hsrv, hrv⟩ := hv st.trace
    (builtRequest "POST" "/Validate/Mobile" [("Mobile", mobile)] none st.cookies) rfl rfl
  have hvs : defaultValidateStatus rv.status = true := by rw [hrv]; decide
  have hvm : validateMobile srv st mobile =
      (true, { cookies := updateCookies st.cookies rv.setCookie,
               trace := st.trace ++ [builtRequest "POST" "/Validate/Mobile"
                 [("Mobile", mobile)] none st.cookies] }) := by
    unfold validateMobile
    rw [doRequest_ok hsrv hvs]
    dsimp only
    rw [hrv]
    simp
  have hsrvp := hp
    (st.trace ++ [builtRequest "POST" "/Validate/Mobile" [("Mobile", mobile)] none st.cookies])
    (builtRequest "GET" "/Account/LoginClients"
      [("CustomerID", "0"), ("ReturnUrl", "/Clients/MakeAppoitment")] none
      (updateCookies st.cookies rv.setCookie)) rfl rfl
  exact ⟨_, _, hvm, doRequest_ok hsrvp hrp, rfl, rfl⟩

/-- C2: whenever the login submit request receives a response, login returns
true exactly when that response's status is the accepted success status 200
or the accepted redirect status 302 (this holds both when the submit
resolves, for statuses 200-399, and when it throws); and when the
verification token cannot be located in the login page body, login returns
false. -/
theorem c2_login_success_statuses (srv : Server) (st : ClientState)
    (mobile : String) (rp : HttpResponse)
    (hv : ∀ hist req, req.method = "POST" → req.path = "/Validate/Mobile" →
      ∃ r, srv hist req = HttpOutcome.response r ∧ r.status = 200)
    (hp : ∀ hist req, req.method = "GET" → req.path = "/Account/LoginClients" →
      srv hist req = HttpOutcome.response rp)
    (hrp : defaultValidateStatus rp.status = true) :
    (∀ tok r0, loginTokenOf rp.data = some tok →
      (∀ hist req, req.method = "POST" → req.path = "/Account/LoginMobileClient" →
        srv hist req = HttpOutcome.response r0) →
      (login srv st mobile).1 = (r0.status == 200 || r0.status == 302)) ∧
    (loginTokenOf rp.data = none → (login srv st mobile).1 = false) := by
  obtain ⟨stv, stp, hvm, hpage, _, _⟩ := login_stage_page srv st mobile rp hv hp hrp
  constructor
  · intro tok r0 htok hs
    unfold login
    rw [hvm]
    dsimp only
    rw [hpage]
    dsimp only
    rw [htok]
    dsimp only
    have hsrvs := hs stp.trace (builtRequest "POST" "/Account/LoginMobileClient" []
      (some ("Mobile=" ++ encodeURIComponent mobile ++
        "&__RequestVerificationToken=" ++ encodeURIComponent tok)) stp.cookies) rfl rfl
    cases hvs : redirectValidateStatus r0.status with
    | true => rw [doRequest_ok hsrvs hvs]
    | false =>
      rw [doRequest_reject hsrvs hvs]
      dsimp only [loginCatch]
      exact Bool.or_comm _ _
  · intro htok
    unfold login
    rw [hvm]
    dsimp only
    rw [hpage]
    dsimp only
    rw [htok]

/-- Witness for C2: against a server that validates the mobile, serves a
token-bearing login page and answers the submit with a 302 redirect, login
returns true. -/
theorem c2_login_success_statuses_witness :
    (login srvLogin302 initialState "0544458876").1 = true := by
  have hv : ∀ hist req, req.method = "POST" → req.path = "/Validate/Mobile" →
      ∃ r, srvLogin302 hist req = HttpOutcome.response r ∧ r.status = 200 := by
    intro hist req _ hpath
    refine ⟨ok200, ?_, rfl⟩
    unfold srvLogin302
    rw [hpath, if_neg (by decide), if_neg (by decide)]
  have hp : ∀ hist req, req.method = "GET" → req.path = "/Account/LoginClients" →
      srvLogin302 hist req = HttpOutcome.response tokenPage := by
    intro hist req _ hpath
    unfold srvLogin302
    rw [hpath, if_neg (by decide), if_pos rfl]
  have hs : ∀ hist req, req.method = "POST" → req.path = "/Account/LoginMobileClient" →
      srvLogin302 hist req = HttpOutcome.response resp302 := by
    intro hist req _ hpath
    unfold srvLogin302
    rw [hpath, if_pos rfl]
  have h := (c2_login_success_statuses srvLogin302 initialState "0544458876" tokenPage
    hv hp (by decide)).1 "tok123" resp302 (by decide) hs
  exact h

/-- C8: when the login page body lacks the verification-token pattern, login
returns false and the login submit request (POST /Account/LoginMobileClient)
is never issued. -/
theorem c8_token_missing_no_submit (srv : Server) (st : ClientState)
    (mobile : String) (rp : HttpResponse)
    (hv : ∀ hist req, req.method = "POST" → req.path = "/Validate/Mobile" →
      ∃ r, srv hist req = HttpOutcome.response r ∧ r.status = 200)
    (hp : ∀ hist req, req.method = "GET" → req.path = "/Account/LoginClients" →
      srv hist req = HttpOutcome.response rp)
    (hrp : defaultValidateStatus rp.status = true)
    (htok : loginTokenOf rp.data = none) :
    (login srv st mobile).1 = false ∧
    ∀ req ∈ (login srv st mobile).2.trace,
      req.path = "/Account/LoginMobileClient" → req ∈ st.trace := by
  obtain ⟨stv, stp, hvm, hpage, htv, htp⟩ := login_stage_page srv st mobile rp hv hp hrp
  have hlogin : login srv st mobile = (false, stp) := by
    unfold login
    rw [hvm]
    dsimp only
    rw [hpage]
    dsimp only
    rw [htok]
  rw [hlogin]
  refine ⟨rfl, ?_⟩
  intro req hreq hpath
  rw [htp, htv] at hreq
  rcases mem_append_single hreq with h | h
  · rcases mem_append_single h with h' | h'
    · exact h'
    · subst h'
      simp only [builtRequest] at hpath
      exact absurd hpath (by decide)
  · subst h
    simp only [builtRequest] at hpath
    exact absurd hpath (by decide)

/-- Witness for C8: against a server serving a tokenless login page, login
returns false. -/
theorem c8_token_missing_no_submit_witness :
    (login srvNoToken initialState "0544458876").1 = false := by
  have hv : ∀ hist req, req.method = "POST" → req.path = "/Validate/Mobile" →
      ∃ r, srvNoToken hist req = HttpOutcome.response r ∧ r.status = 200 := by
    intro hist req _ hpath
    refine ⟨ok200, ?_, rfl⟩
    unfold srvNoToken
    rw [hpath, if_neg (by decide)]
  have hp : ∀ hist req, req.method = "GET" → req.path = "/Account/LoginClients" →
      srvNoToken hist req = HttpOutcome.response noTokenPage := by
    intro hist req _ hpath
    unfold srvNoToken
    rw [hpath, if_pos rfl]
  exact (c8_token_missing_no_submit srvNoToken initialState "0544458876" noTokenPage
    hv hp (by decide) (by decide)).1

/-- Every result of bookAppointment carries a message. -/
lemma bookAppointment_message_isSome (srv : Server) (st : ClientState)
    (ids : List Nat) (sid : Nat) (d t : String) (len : Nat) :
    ((bookAppointment srv st ids sid d t len).1.message).isSome = true := by
  unfold bookAppointment
  rcases h1 : doRequest srv st "GET" "/Clients/TimeSelect"
      [("ids", String.intercalate "," (ids.map (fun n => toString n))),
       ("id", "0"), ("Customers", ""),
       ("SchedulerID", toString sid), ("BranchID", "0")]
      none defaultValidateStatus with ⟨o1, st1⟩
  cases o1 with
  | err resp msg => simp [bookCatch]
  | ok r1 =>
    dsimp only
    rcases h2 : doRequest srv st1 "POST" "/Clients/AskAppointment"
        [("Length", toString len)] none defaultValidateStatus with ⟨o2, st2⟩
    cases o2 with
    | err resp msg => simp [bookCatch]
    | ok r2 =>
      dsimp only
      by_cases h200 : (r2.status == 200) = true
      · simp [h200]
      · simp [h200]

/-- C5: completeBooking never lets an exception escape — in the embedding
every branch of every callee produces a result, and every result carries a
message; in particular whenever login returns false completeBooking returns
the failure result with message "Login failed". -/
theorem c5_login_failed_no_exception (srv : Server) (st : ClientState)
    (config : BookingConfig) :
    ((login srv st config.mobile).1 = false →
      (completeBooking srv st config).1 = loginFailedResult) ∧
    ((completeBooking srv st config).1.message).isSome = true := by
  rcases hl : login srv st config.mobile with ⟨b, st1⟩
  constructor
  · intro hfalse
    have hb : b = false := hfalse
    subst hb
    unfold completeBooking
    rw [hl]
  · unfold completeBooking
    rw [hl]
    cases b with
    | false => rfl
    | true =>
      dsimp only
      rcases hg : getAvailableTimes srv st1 (defaultAppointmentTypeIds config.serviceTypeId)
          (jsOrNat config.schedulerId 6132) 0 with ⟨times, st2⟩
      dsimp only
      rcases hd : config.date with _ | d
      · rfl
      · rcases ht : config.time with _ | t
        · rfl
        · dsimp only
          by_cases hjt : (jsTruthy d && jsTruthy t) = true
          · simp only [hjt, if_true]
            exact bookAppointment_message_isSome srv st2
              (defaultAppointmentTypeIds config.serviceTypeId)
              (jsOrNat config.schedulerId 6132) d t 7
          · simp only [Bool.not_eq_true] at hjt
            simp only [hjt, Bool.false_eq_true, if_false]
            rfl

/-- Witness for C5: a server that is unreachable at the transport level
makes login fail and completeBooking returns the login-failed result. -/
theorem c5_login_failed_no_exception_witness :
    (completeBooking srvFail initialState c1Config).1 = loginFailedResult := by
  exact (c5_login_failed_no_exception srvFail initialState c1Config).1 (by decide)

/-- C7: when config.date or config.time is absent and login succeeds,
completeBooking returns the logged-in-only success result, which carries no
appointment date or time, and the booking request
(POST /Clients/AskAppointment, issued only by bookAppointment) is never
sent. -/
theorem c7_no_date_no_booking (srv : Server) (st : ClientState)
    (config : BookingConfig)
    (hlogin : (login srv st config.mobile).1 = true)
    (hdt : config.date = none ∨ config.time = none) :
    (completeBooking srv st config).1.success = true ∧
    (completeBooking srv st config).1.date = none ∧
    (completeBooking srv st config).1.time = none ∧
    ∀ req ∈ (completeBooking srv st config).2.trace,
      req.path = "/Clients/AskAppointment" → req ∈ st.trace := by
  rcases hl : login srv st config.mobile with ⟨b, st1⟩
  have hb : b = true := by
    rw [hl] at hlogin
    exact hlogin
  subst hb
  unfold completeBooking
  rw [hl]
  dsimp only
  rcases hg : getAvailableTimes srv st1 (defaultAppointmentTypeIds config.serviceTypeId)
      (jsOrNat config.schedulerId 6132) 0 with ⟨times, st2⟩
  dsimp only
  have htrace : ∀ req ∈ st2.trace, req.path = "/Clients/AskAppointment" → req ∈ st.trace := by
    intro req hreq hpath
    have hgat := gat_trace_paths srv st1 (defaultAppointmentTypeIds config.serviceTypeId)
      (jsOrNat config.schedulerId 6132) 0
    rw [hg] at hgat
    rcases hgat req hreq with hin | hw | hw | hw | hw
    · have hlt := login_trace_paths srv st config.mobile
      rw [hl] at hlt
      rcases hlt req hin with hin0 | hw | hw | hw
      · exact hin0
      · rw [hpath] at hw; exact absurd hw (by decide)
      · rw [hpath] at hw; exact absurd hw (by decide)
      · rw [hpath] at hw; exact absurd hw (by decide)
    · rw [hpath] at hw; exact absurd hw (by decide)
    · rw [hpath] at hw; exact absurd hw (by decide)
    · rw [hpath] at hw; exact absurd hw (by decide)
    · rw [hpath] at hw; exact absurd hw (by decide)
  rcases hd : config.date with _ | d
  · exact ⟨rfl, rfl, rfl, htrace⟩
  · rcases ht : config.time with _ | t
    · exact ⟨rfl, rfl, rfl, htrace⟩
    · exfalso
      rcases hdt with h | h
      · rw [hd] at h; exact Option.noConfusion h
      · rw [ht] at h; exact Option.noConfusion h

/-- Witness for C7: against the accepting server with a config missing the
date, completeBooking reports the logged-in-only success. -/
theorem c7_no_date_no_booking_witness :
    (completeBooking srvBookOK initialState noDateConfig).1.success = true := by
  exact (c7_no_date_no_booking srvBookOK initialState noDateConfig (by decide)
    (Or.inl rfl)).1

/-- C6: given that the preceding time-selection page visit resolves, the
outcome of the booking call determines bookAppointment's result exactly: a
resolved status 200 echoes the input date and time in a success result; any
other resolved (2xx) status gives the generic failure message; a response
thrown by `validateStatus` (any non-2xx status) gives a failure carrying the
server's embedded message or else the axios error message; a network error
gives a failure carrying the error's message (or "Unknown error" when it is
empty). -/
theorem c6_bookappointment_statuses (srv : Server) (st : ClientState)
    (ids : List Nat) (sid : Nat) (d t : String) (len : Nat) (o0 : HttpOutcome)
    (hts : ∀ hist req, req.method = "GET" → req.path = "/Clients/TimeSelect" →
      ∃ r, srv hist req = HttpOutcome.response r ∧ defaultValidateStatus r.status = true)
    (hbook : ∀ hist req, req.method = "POST" → req.path = "/Clients/AskAppointment" →
      srv hist req = o0) :
    (∀ r0, o0 = HttpOutcome.response r0 →
      ((defaultValidateStatus r0.status = true → r0.status = 200 →
        (bookAppointment srv st ids sid d t len).1
          = { success := true, message := some "Appointment booked successfully",
              appointmentId := none, date := some d, time := some t }) ∧
       (defaultValidateStatus r0.status = true → r0.status ≠ 200 →
        (bookAppointment srv st ids sid d t len).1
          = { success := false, message := some "Booking failed - unexpected response",
              appointmentId := none, date := none, time := none }) ∧
       (defaultValidateStatus r0.status = false →
        (bookAppointment srv st ids sid d t len).1
          = { success := false,
              message := some (jsOr (payloadMessage r0.data)
                (jsOr (some (axiosStatusMessage r0.status)) "Unknown error")),
              appointmentId := none, date := none, time := none }))) ∧
    (∀ msg, o0 = HttpOutcome.netError msg →
      (bookAppointment srv st ids sid d t len).1
        = { success := false, message := some (jsOr (some msg) "Unknown error"),
            appointmentId := none, date := none, time := none }) := by
  obtain ⟨r1, hsrv1, hvs1⟩ := hts st.trace
    (builtRequest "GET" "/Clients/TimeSelect"
      [("ids", String.intercalate "," (ids.map (fun n => toString n))),
       ("id", "0"), ("Customers", ""),
       ("SchedulerID", toString sid), ("BranchID", "0")] none st.cookies) rfl rfl
  have h1 := doRequest_ok hsrv1 hvs1
  have hsrv2 := hbook
    (st.trace ++ [builtRequest "GET" "/Clients/TimeSelect"
      [("ids", String.intercalate "," (ids.map (fun n => toString n))),
       ("id", "0"), ("Customers", ""),
       ("SchedulerID", toString sid), ("BranchID", "0")] none st.cookies])
    (builtRequest "POST" "/Clients/AskAppointment" [("Length", toString len)] none
      (updateCookies st.cookies r1.setCookie)) rfl rfl
  constructor
  · intro r0 ho0
    rw [ho0] at hsrv2
    refine ⟨?_, ?_, ?_⟩
    · intro hvs0 h200
      unfold bookAppointment
      rw [h1]
      dsimp only
      rw [doRequest_ok hsrv2 hvs0]
      dsimp only
      rw [h200]
      simp
    · intro hvs0 h200
      unfold bookAppointment
      rw [h1]
      dsimp only
      rw [doRequest_ok hsrv2 hvs0]
      dsimp only
      rw [beq_eq_false_iff_ne.mpr h200]
      simp
    · intro hvs0
      unfold bookAppointment
      rw [h1]
      dsimp only
      rw [doRequest_reject hsrv2 hvs0]
      dsimp only [bookCatch]
      rfl
  · intro msg ho0
    rw [ho0] at hsrv2
    unfold bookAppointment
    rw [h1]
    dsimp only
    rw [doRequest_net hsrv2]
    dsimp only [bookCatch]
    rfl

/-- Witness for C6: against a server answering 200 everywhere, a concrete
booking echoes the requested date and time. -/
theorem c6_bookappointment_statuses_witness :
    (bookAppointment srv200 initialState [1] 6132 "2025-11-16" "10:00" 7).1
      = { success := true, message := some "Appointment booked successfully",
          appointmentId := none, date := some "2025-11-16", time := some "10:00" } := by
  have hts : ∀ hist req, req.method = "GET" → req.path = "/Clients/TimeSelect" →
      ∃ r, srv200 hist req = HttpOutcome.response r ∧
        defaultValidateStatus r.status = true := by
    intro hist req _ _
    exact ⟨ok200, rfl, by decide⟩
  have hbook : ∀ hist req, req.method = "POST" → req.path = "/Clients/AskAppointment" →
      srv200 hist req = HttpOutcome.response ok200 := by
    intro hist req _ _
    rfl
  exact ((c6_bookappointment_statuses srv200 initialState [1] 6132 "2025-11-16" "10:00" 7
    (HttpOutcome.response ok200) hts hbook).1 ok200 rfl).1 (by decide) (by decide)

/-- C1: for every server behaviour under which login succeeds from a fresh
client, the booking call is actually issued, and the server answers the
booking call (POST /Clients/AskAppointment) with status 200, completeBooking
with mobile 0544458876, date 2025-11-16 and time 10:00 returns the success
result echoing that date and time. -/
theorem c1_end_to_end (srv : Server)
    (hlogin : (login srv initialState "0544458876").1 = true)
    (hbook : ∀ hist req, req.method = "POST" → req.path = "/Clients/AskAppointment" →
      ∃ r, srv hist req = HttpOutcome.response r ∧ r.status = 200)
    (hreach : ∃ req ∈ (completeBooking srv initialState c1Config).2.trace,
      req.path = "/Clients/AskAppointment") :
    (completeBooking srv initialState c1Config).1
      = { success := true, message := some "Appointment booked successfully",
          appointmentId := none, date := some "2025-11-16", time := some "10:00" } := by
  rcases hl : login srv initialState "0544458876" with ⟨b, st1⟩
  have hb : b = true := by rw [hl] at hlogin; exact hlogin
  subst hb
  rcases hg : getAvailableTimes srv st1 [37331] 6132 0 with ⟨times, st2⟩
  have hcb : completeBooking srv initialState c1Config
      = bookAppointment srv st2 [37331] 6132 "2025-11-16" "10:00" 7 := by
    unfold completeBooking
    dsimp only [c1Config, defaultAppointmentTypeIds, jsOrNat]
    rw [hl]
    dsimp only
    rw [hg]
    rfl
  rw [hcb] at hreach
  rw [hcb]
  unfold bookAppointment at hreach ⊢
  rcases h1 : doRequest srv st2 "GET" "/Clients/TimeSelect"
      [("ids", String.intercalate "," ([37331].map (fun n => toString n))),
       ("id", "0"), ("Customers", ""),
       ("SchedulerID", toString 6132), ("BranchID", "0")]
      none defaultValidateStatus with ⟨o1, stb1⟩
  rw [h1] at hreach
  have t1 := doRequest_trace_of_eq h1
  cases o1 with
  | err resp msg =>
    exfalso
    dsimp only at hreach
    obtain ⟨reqx, hmem, hpath⟩ := hreach
    rw [t1] at hmem
    have hnot : ∀ req ∈ st2.trace, req.path ≠ "/Clients/AskAppointment" := by
      intro req hreq hp
      have hgat := gat_trace_paths srv st1 [37331] 6132 0
      rw [hg] at hgat
      rcases hgat req hreq with hin | hw | hw | hw | hw
      · have hlt := login_trace_paths srv initialState "0544458876"
        rw [hl] at hlt
        rcases hlt req hin with hin0 | hw | hw | hw
        · simp [initialState] at hin0
        · rw [hp] at hw; exact absurd hw (by decide)
        · rw [hp] at hw; exact absurd hw (by decide)
        · rw [hp] at hw; exact absurd hw (by decide)
      · rw [hp] at hw; exact absurd hw (by decide)
      · rw [hp] at hw; exact absurd hw (by decide)
      · rw [hp] at hw; exact absurd hw (by decide)
      · rw [hp] at hw; exact absurd hw (by decide)
    rcases mem_append_single hmem with h | h
    · exact hnot reqx h hpath
    · subst h
      simp only [builtRequest] at hpath
      exact absurd hpath (by decide)
  | ok r1 =>
    dsimp only
    obtain ⟨r2, hsrv2, hr2⟩ := hbook stb1.trace
      (builtRequest "POST" "/Clients/AskAppointment" [("Length", toString 7)] none
        stb1.cookies) rfl rfl
    have hvs2 : defaultValidateStatus r2.status = true := by rw [hr2]; decide
    rw [doRequest_ok hsrv2 hvs2]
    dsimp only
    rw [hr2]
    simp

/-- Witness for C1: the accepting server realises the end-to-end scenario. -/
theorem c1_end_to_end_witness :
    (completeBooking srvBookOK initialState c1Config).1
      = { success := true, message := some "Appointment booked successfully",
          appointmentId := none, date := some "2025-11-16", time := some "10:00" } := by
  refine c1_end_to_end srvBookOK (by decide) ?_ (by decide)
  intro hist req _ hpath
  refine ⟨ok200, ?_, rfl⟩
  unfold srvBookOK
  rw [hpath, if_neg (by decide)]
